import Mathlib

/-!
# Verification of the tabular-data-mcp server (src/main.py)

Shallow embedding of the sandboxing layer of `src/main.py`:

* a lexical model of the POSIX path functions used by the guards
  (`os.path.join`, `os.path.abspath`, `os.path.normpath`, `str.startswith`),
  following CPython's `posixpath` implementation;
* the guarded file-open function `safe_open` (src/main.py lines 158-169)
  and the guarded `SafePath` constructor (lines 141-155);
* the guarded import function `safe_import` (lines 63-104);
* the per-request execution namespace `create_safe_namespace` (lines 46-206)
  together with a small state model of cross-request module state;
* the tool entry point `run_python_code` (lines 264-371), with the external
  RestrictedPython compiler and the `exec` step abstracted as parameters.

All definitions are executable; theorems at the end settle the claims.
-/

namespace TabularMCP

/-! ## Lexical model of the POSIX path functions

CPython's `posixpath` module operates on strings; we operate on `List Char`
(`String.data`) so that the splitting and joining functions are structurally
recursive and amenable to induction.
-/

/-- `s.split('/')` from Python: split a character list at every `'/'`.
`splitSlash [] = [[]]` matches `"".split('/') == ['']`. -/
def splitSlash : List Char → List (List Char)
  | [] => [[]]
  | c :: cs =>
    if c = '/' then [] :: splitSlash cs
    else
      match splitSlash cs with
      | [] => [[c]]
      | w :: ws => (c :: w) :: ws

/-- `'/'.join(ws)` from Python: interleave a single `'/'` between components. -/
def joinSlash : List (List Char) → List Char
  | [] => []
  | [w] => w
  | w :: ws => w ++ '/' :: joinSlash ws

/-- The path component `".."`. -/
def dotdot : List Char := ['.', '.']

/-- The component-processing loop of CPython `posixpath.normpath`:
`''` and `'.'` components are dropped; a `'..'` pops the previous component
unless the path is relative and nothing has been accumulated yet (or the
accumulated tail is itself `'..'`); a `'..'` at the root of an absolute path
is dropped.  The accumulator is kept reversed (head = most recent component),
mirroring Python's `new_comps.append` / `new_comps.pop()` at the list end. -/
def normAcc (isAbs : Bool) : List (List Char) → List (List Char) → List (List Char)
  | acc, [] => acc
  | acc, comp :: rest =>
    if comp = [] ∨ comp = ['.'] then normAcc isAbs acc rest
    else if comp ≠ dotdot ∨ (isAbs = false ∧ acc = []) ∨ acc.head? = some dotdot then
      normAcc isAbs (comp :: acc) rest
    else if acc = [] then normAcc isAbs acc rest
    else normAcc isAbs acc.tail rest

/-- Number of slashes CPython `posixpath.normpath` preserves at the front:
`1` normally, `2` for exactly two leading slashes (POSIX special case),
`1` again for three or more. -/
def initialSlashes (p : List Char) : Nat :=
  if p.take 3 = ['/', '/', '/'] then 1
  else if p.take 2 = ['/', '/'] then 2
  else if p.take 1 = ['/'] then 1
  else 0

/-- `posixpath.isabs`: the path starts with `'/'`. -/
def pyIsAbs (p : List Char) : Bool := decide (p.take 1 = ['/'])

/-- CPython `posixpath.normpath`: purely lexical normalization.  Note that it
does **not** consult the filesystem, so symbolic links are not resolved. -/
def normpath (p : List Char) : List Char :=
  let slashes := initialSlashes p
  let body := joinSlash (List.reverse (normAcc (pyIsAbs p) [] (splitSlash p)))
  let res := List.replicate slashes '/' ++ body
  if res = [] then ['.'] else res

/-- CPython `posixpath.join` for two arguments: an absolute second argument
discards the first; otherwise the parts are glued with a single `'/'`. -/
def os_join (a b : List Char) : List Char :=
  if b.take 1 = ['/'] then b
  else if a = [] ∨ a.getLast? = some '/' then a ++ b
  else a ++ '/' :: b

/-- CPython `posixpath.abspath` with the process working directory `cwd`
made explicit: join onto `cwd` when relative, then normalize lexically. -/
def os_abspath (cwd p : List Char) : List Char :=
  if p.take 1 = ['/'] then normpath p else normpath (os_join cwd p)

/-- Python `s.startswith(pre)` on character lists. -/
def startswithCL : List Char → List Char → Bool
  | _, [] => true
  | [], _ :: _ => false
  | c :: cs, d :: ds => c = d && startswithCL cs ds

/-- `s.startswith(pre)` on strings. -/
def pyStartswith (s pre : String) : Bool := startswithCL s.data pre.data

/-- `os.path.abspath` on strings, with explicit working directory. -/
def pyAbspath (cwd p : String) : String := ⟨os_abspath cwd.data p.data⟩

/-- `os.path.join` on strings. -/
def pyJoinPath (a b : String) : String := ⟨os_join a.data b.data⟩

/-! ## The file-access guards (src/main.py lines 36-37, 141-169) -/

/-- Global configuration, src/main.py line 37. -/
def DATA_DIRECTORY : String := "./data"

/-- Outcome of `safe_open`: either the `PermissionError` branch or a call of
the real `open` on the joined (unnormalized) path. -/
inductive OpenResult
  | opened (file_path : String)
  | permissionError (msg : String)
deriving DecidableEq

/-- `safe_open` (src/main.py lines 158-167): join the filename onto
`DATA_DIRECTORY`, take `os.path.abspath` of the result and of
`DATA_DIRECTORY`, and raise `PermissionError` unless the former string
starts with the latter; otherwise `open(file_path, ...)` is called.
The mode and keyword arguments play no part in the guard and are omitted. -/
def safe_open (cwd filename : String) : OpenResult :=
  let file_path := pyJoinPath DATA_DIRECTORY filename
  let abs_path := pyAbspath cwd file_path
  let data_abs := pyAbspath cwd DATA_DIRECTORY
  if pyStartswith abs_path data_abs then OpenResult.opened file_path
  else OpenResult.permissionError ("Access denied: Can only open files in " ++ DATA_DIRECTORY)

/-- Outcome of the `SafePath.__init__` guard. -/
inductive PathResult
  | safePath (p : String)
  | permissionError (msg : String)
deriving DecidableEq

/-- `SafePath.__init__` (src/main.py lines 141-150): take `os.path.abspath`
of the argument **as given** (no join onto the data directory) and raise
`PermissionError` unless it starts with the absolute data directory. -/
def SafePath_init (cwd p : String) : PathResult :=
  let abs_path := pyAbspath cwd p
  let data_abs := pyAbspath cwd DATA_DIRECTORY
  if pyStartswith abs_path data_abs then PathResult.safePath p
  else PathResult.permissionError ("Access denied: Path must be within " ++ DATA_DIRECTORY)

/-- Semantic containment: an absolute path lies inside the data root when it
is the root itself or extends it past a `'/'` separator.  (This is the
property the spec's prefix comparison is meant to decide; the code's bare
`startswith` differs from it on sibling names such as `".../data2"`.) -/
def withinRoot (cwd abs_path : String) : Bool :=
  let data_abs := pyAbspath cwd DATA_DIRECTORY
  decide (abs_path = data_abs) || pyStartswith abs_path (data_abs ++ "/")

/-! ## The guarded import function (src/main.py lines 63-104) -/

/-- The module allow-list, src/main.py lines 64-77 (a Python set; only
membership is used, so a list is an adequate model). -/
def allowed_modules : List String :=
  ["pandas", "pd", "numpy", "np", "matplotlib", "matplotlib.pyplot",
   "openpyxl", "json", "math", "statistics", "datetime", "re"]

/-- Result of `safe_import`: a module object, or a raised `ImportError`. -/
inductive ImportResult
  | module (name : String)
  | importError (msg : String)
deriving DecidableEq

/-- The message of the `raise ImportError` at src/main.py line 102. -/
def deniedMsg (name : String) : String :=
  "Module '" ++ name ++ "' is not allowed in restricted environment"

/-- The message of the `raise ImportError` at src/main.py lines 90 and 98. -/
def unavailableMsg (name : String) : String :=
  "Module " ++ name ++ " not available"

/-- `safe_import` (src/main.py lines 63-102).  The two booleans model the
`try import ... except ImportError` guards for numpy and matplotlib.
Faithfulness note: when `name` is in `allowed_modules` but matches none of
the `if/elif` branches inside the block (this happens for `"pd"`, `"np"`,
`"matplotlib"` and `"openpyxl"`), control falls through to the
`raise ImportError` at line 102, exactly as in the source. -/
def safe_import (numpy_ok matplotlib_ok : Bool) (name : String) : ImportResult :=
  if name ∈ allowed_modules then
    if name = "pandas" then ImportResult.module "pandas"
    else if name = "numpy" then
      if numpy_ok then ImportResult.module "numpy"
      else ImportResult.importError (unavailableMsg name)
    else if name = "matplotlib.pyplot" then
      if matplotlib_ok then ImportResult.module "matplotlib.pyplot"
      else ImportResult.importError (unavailableMsg name)
    else if name ∈ ["json", "math", "statistics", "datetime", "re"] then
      ImportResult.module name
    else ImportResult.importError (deniedMsg name)
  else ImportResult.importError (deniedMsg name)

/-- The `__import__` entry of the builtins mapping under which submitted
code executes.  `exec` at src/main.py line 336 gives the frame the builtins
taken from the namespace's `__builtins__` entry, which line 49 sets — via
`safe_globals.copy()` — to RestrictedPython's `safe_builtins`, a dict that
contains **no** `__import__` key.  The line-104 assignment of `safe_import`
to the namespace's `__import__` key creates a module-level global instead,
one the import machinery never consults; hence the hook is absent. -/
def builtins_import_hook : Option (Bool → Bool → String → ImportResult) := none

/-- An `import name` statement in submitted code, as executed by CPython's
`IMPORT_NAME` instruction: `__import__` is resolved from the executing
frame's builtins and called; when the builtins provide no `__import__`, the
interpreter raises `ImportError("__import__ not found")` — the same message
for every module name. -/
def runImportStmt (hook : Option (Bool → Bool → String → ImportResult))
    (numpy_ok matplotlib_ok : Bool) (name : String) : ImportResult :=
  match hook with
  | none => ImportResult.importError "__import__ not found"
  | some imp => imp numpy_ok matplotlib_ok name

/-! ## The execution namespace and cross-request state (src/main.py 46-206)

`create_safe_namespace` builds a fresh Python `dict` per call
(`safe_globals.copy()` plus explicit assignments).  The values it installs
are either guard functions, allow-listed built-ins, or references to
**process-wide module objects** (Python's `import` returns the same module
object every time).  A `PyValue.moduleRef m` therefore names a shared
singleton: attribute state planted on it lives in a process-global
`ModuleHeap`, not in any per-call namespace.
-/

/-- Values stored in the execution namespace. -/
inductive PyValue
  | intV (n : Int)
  | strV (s : String)
  | builtinFn (name : String)
  | guardFn (name : String)
  | moduleRef (m : String)
deriving DecidableEq

/-- A Python dict keyed by identifier.  Keys in `create_safe_namespace` are
pairwise distinct, so first-match lookup models dict lookup, and new
front-inserts model dict assignment. -/
abbrev NS := List (String × PyValue)

/-- Process-global attribute state of the shared module objects:
`(module, attribute) ↦ value` for attributes planted by executed code. -/
abbrev ModuleHeap := List ((String × String) × PyValue)

/-- `create_safe_namespace` (src/main.py lines 46-206), in source order:
the `safe_globals.copy()` seed, the RestrictedPython guard primitives
(note line 60: `_write_` is the **identity**, so attribute writes reach the
real objects), `safe_import` as `__import__`, the pre-imported data-science
modules (the `try` blocks succeed in the supported deployment), the
`SafePath` and `safe_open` guards, the built-in allow-list, and the
pre-imported standard-library modules. -/
def create_safe_namespace : NS :=
  [("__builtins__", PyValue.builtinFn "safe_builtins"),
   ("_iter_unpack_sequence_", PyValue.guardFn "guarded_iter_unpack_sequence"),
   ("__name__", PyValue.strV "__restricted__"),
   ("_getitem_", PyValue.guardFn "getitem"),
   ("_getiter_", PyValue.guardFn "iter"),
   ("_getattr_", PyValue.guardFn "getattr"),
   ("_write_", PyValue.guardFn "identity"),
   ("__import__", PyValue.guardFn "safe_import"),
   ("pd", PyValue.moduleRef "pandas"),
   ("pandas", PyValue.moduleRef "pandas"),
   ("np", PyValue.moduleRef "numpy"),
   ("numpy", PyValue.moduleRef "numpy"),
   ("plt", PyValue.moduleRef "matplotlib.pyplot"),
   ("matplotlib", PyValue.moduleRef "matplotlib"),
   ("openpyxl", PyValue.moduleRef "openpyxl"),
   ("Path", PyValue.guardFn "SafePath"),
   ("open", PyValue.guardFn "safe_open"),
   ("len", PyValue.builtinFn "len"),
   ("str", PyValue.builtinFn "str"),
   ("int", PyValue.builtinFn "int"),
   ("float", PyValue.builtinFn "float"),
   ("list", PyValue.builtinFn "list"),
   ("dict", PyValue.builtinFn "dict"),
   ("tuple", PyValue.builtinFn "tuple"),
   ("set", PyValue.builtinFn "set"),
   ("bool", PyValue.builtinFn "bool"),
   ("range", PyValue.builtinFn "range"),
   ("enumerate", PyValue.builtinFn "enumerate"),
   ("zip", PyValue.builtinFn "zip"),
   ("sum", PyValue.builtinFn "sum"),
   ("min", PyValue.builtinFn "min"),
   ("max", PyValue.builtinFn "max"),
   ("abs", PyValue.builtinFn "abs"),
   ("round", PyValue.builtinFn "round"),
   ("sorted", PyValue.builtinFn "sorted"),
   ("reversed", PyValue.builtinFn "reversed"),
   ("print", PyValue.builtinFn "print"),
   ("json", PyValue.moduleRef "json"),
   ("math", PyValue.moduleRef "math"),
   ("statistics", PyValue.moduleRef "statistics"),
   ("datetime", PyValue.moduleRef "datetime"),
   ("re", PyValue.moduleRef "re")]

/-- The namespace/heap interactions of restricted statements relevant to the
isolation claims: a top-level assignment (a write to the namespace dict used
by `exec`), a name read, an attribute write `x.a = v` (RestrictedPython
routes it through `_write_`, which is the identity at line 60, so it is a
raw `setattr`), and an attribute read `x.a` (routed through `_getattr_`,
which is plain `getattr` at line 59). -/
inductive Stmt
  | assign (x : String) (v : PyValue)
  | readVar (x : String)
  | setattrStmt (x a : String) (v : PyValue)
  | getattrStmt (x a : String)
deriving DecidableEq

/-- Observable outcome of a single statement. -/
inductive Obs
  | value (v : PyValue)
  | nameError (x : String)
  | attrError (m a : String)
  | typeError
deriving DecidableEq

/-- One statement: assignments touch only the per-call namespace; attribute
writes on a module reference land in the process-global module heap (because
`_write_` is the identity and module objects are shared singletons);
attribute reads consult that heap. -/
def execStmt (ns : NS) (h : ModuleHeap) : Stmt → NS × ModuleHeap × Option Obs
  | Stmt.assign x v => ((x, v) :: ns, h, none)
  | Stmt.readVar x =>
    match ns.lookup x with
    | some v => (ns, h, some (Obs.value v))
    | none => (ns, h, some (Obs.nameError x))
  | Stmt.setattrStmt x a v =>
    match ns.lookup x with
    | some (PyValue.moduleRef m) => (ns, ((m, a), v) :: h, none)
    | some _ => (ns, h, some Obs.typeError)
    | none => (ns, h, some (Obs.nameError x))
  | Stmt.getattrStmt x a =>
    match ns.lookup x with
    | some (PyValue.moduleRef m) =>
      match h.lookup (m, a) with
      | some v => (ns, h, some (Obs.value v))
      | none => (ns, h, some (Obs.attrError m a))
    | some _ => (ns, h, some Obs.typeError)
    | none => (ns, h, some (Obs.nameError x))

/-- Run a statement list, threading the namespace and the module heap and
collecting the observations. -/
def execProg : NS → ModuleHeap → List Stmt → List Obs × ModuleHeap
  | _, h, [] => ([], h)
  | ns, h, s :: rest =>
    let step := execStmt ns h s
    let tail := execProg step.1 step.2.1 rest
    (step.2.2.toList ++ tail.1, tail.2)

/-- One `run_python_code` request at the state level (src/main.py lines
309-310 and 335-336): a **freshly constructed** namespace from
`create_safe_namespace()` is used for `exec`; the process-global module
heap is whatever the process has accumulated. -/
def run_request (h : ModuleHeap) (prog : List Stmt) : List Obs × ModuleHeap :=
  execProg create_safe_namespace h prog

/-- Two sequential `run_python_code` requests starting from a pristine
process: run `prog1`, then run `prog2`, and return the observations of the
second request. -/
def twoCalls (prog1 prog2 : List Stmt) : List Obs :=
  (run_request (run_request [] prog1).2 prog2).1

/-! ## The `run_python_code` tool (src/main.py lines 264-371)

The RestrictedPython compiler (`compile_restricted_exec`, an external
library) is abstracted as the `CompiledUnit` it returns, and the `exec` step
as an `Except` outcome: `.error tb` models an exception whose
`traceback.format_exc()` rendering is `tb`, `.ok` carries the captured
streams.  `run_python_code` itself is a total `String`-valued function: the
`try/except` at lines 288/366 guarantees the tool never raises.
-/

/-- The fields of the object returned by `compile_restricted_exec` that
`run_python_code` consults (the compiled bytecode itself is only ever passed
to `exec` and needs no structure here). -/
structure CompiledUnit where
  errors : List String
  warnings : List String

/-- The output captured from one `exec` (src/main.py lines 330-343):
the redirected stdout and stderr buffers, and the strings collected by the
`CustomPrintCollector`. -/
structure Captured where
  stdout_output : String
  stderr_output : String
  collected : List String

/-- Python `str.rstrip()` whitespace set (ASCII part). -/
def pySpace (c : Char) : Bool :=
  c = ' ' || c = '\t' || c = '\n' || c = '\r' || c = '\x0b' || c = '\x0c'

/-- Python `s.rstrip()`. -/
def pyRstrip (s : String) : String :=
  ⟨(s.data.reverse.dropWhile pySpace).reverse⟩

/-- The compile-error message built at src/main.py lines 294-296. -/
def format_compile_errors (errors : List String) : String :=
  "RestrictedPython compilation errors:\n" ++
    String.join (errors.map fun e => "- " ++ e ++ "\n")

/-- The warnings banner built at src/main.py lines 300-307 (empty string
when there are no warnings, matching the `warnings_text = ""` default). -/
def warnings_text_of (warnings : List String) : String :=
  if warnings ≠ [] then
    "WARNING - RestrictedPython detected potentially unsafe patterns:\n" ++
      String.join (warnings.map fun w => "- " ++ w ++ "\n") ++ "\n"
  else ""

/-- `print_output` at src/main.py lines 341-343:
`"\n".join(print_collector.collected) if print_collector.collected else ""`. -/
def print_output_of (cap : Captured) : String :=
  if cap.collected ≠ [] then String.intercalate "\n" cap.collected else ""

/-- The message returned on success without output, src/main.py lines
359/362. -/
def noOutputMsg : String :=
  "Code executed successfully in restricted environment (no output produced)"

/-- `output_parts` as built by the four `if` statements at src/main.py lines
346-354: warnings, then collected print output, then raw stdout, then raw
stderr, each rstripped and included only when the underlying string is
non-empty (Python truthiness). -/
def output_parts (warnings : List String) (cap : Captured) : List String :=
  (if warnings_text_of warnings ≠ "" then [pyRstrip (warnings_text_of warnings)] else [])
  ++ (if print_output_of cap ≠ "" then [pyRstrip (print_output_of cap)] else [])
  ++ (if cap.stdout_output ≠ "" then [pyRstrip cap.stdout_output] else [])
  ++ (if cap.stderr_output ≠ "" then ["stderr: " ++ pyRstrip cap.stderr_output] else [])

/-- `run_python_code` (src/main.py lines 288-371) given the compiler's
result and the outcome of the `exec` step.  Control flow, in source order:
non-empty `errors` returns the formatted error list before any execution
(lines 293-297); an exception anywhere in the `try` is caught at line 366
and returned as text wrapping `traceback.format_exc()`; otherwise the
captured outputs are combined (lines 345-364), with the explicit no-output
message when nothing was captured (lines 356-362). -/
def run_python_code (cu : CompiledUnit) (outcome : Except String Captured) : String :=
  if cu.errors ≠ [] then format_compile_errors cu.errors
  else
    match outcome with
    | Except.error tb => "Error executing Python code in restricted environment:\n" ++ tb
    | Except.ok cap =>
      if print_output_of cap = "" ∧ cap.stdout_output = "" ∧ cap.stderr_output = "" then
        if warnings_text_of cu.warnings ≠ "" then
          String.intercalate "\n" (output_parts cu.warnings cap ++ [noOutputMsg])
        else noOutputMsg
      else String.intercalate "\n" (output_parts cu.warnings cap)

/-! ## The formatted traceback (Python stdlib, called at src/main.py 368)

`traceback.format_exc()` renders the current exception as the header
`"Traceback (most recent call last):"`, one `File "<name>", line <n>,
in <fn>` entry per stack frame starting at the frame that catches — here
`run_python_code` itself, whose `exec` call sits at line 336 of the server's
own source file — and the final exception line.
-/

/-- One traceback frame entry. -/
structure PyFrame where
  filename : String
  line : Nat
  fname : String

/-- The rendering of one frame in `traceback.format_exc()` output
(source-line echo omitted; it only adds more internal detail). -/
def format_frame (f : PyFrame) : String :=
  "  File \"" ++ f.filename ++ "\", line " ++ toString f.line ++ ", in " ++ f.fname ++ "\n"

/-- `traceback.format_exc()` for an exception with the given frame stack and
final exception line. -/
def format_exc (frames : List PyFrame) (excLine : String) : String :=
  "Traceback (most recent call last):\n" ++
    String.join (frames.map format_frame) ++ excLine ++ "\n"

/-- The path under which the server's own source was loaded, for an instance
launched via an absolute script path (e.g. by a process manager). -/
def serverPathDemo : String := "/opt/tabular-data-mcp/main.py"

/-- A component of a well-formed absolute path: nonempty, not `"."`, not
`".."`, and slash-free.  The components of the value of `os.getcwd()` (a
normalized absolute path) are of this form. -/
def normalComp (w : List Char) : Bool :=
  decide (w ≠ []) && decide (w ≠ ['.']) && decide (w ≠ dotdot) && decide ('/' ∉ w)

/-- The single path component of the data directory. -/
def dataComp : List Char := ['d', 'a', 't', 'a']

/-- The output segments of one successful call as §5 of the spec orders
them — warnings first, then print-collected output, then raw stdout, then
raw stderr — keeping exactly the segments whose captured string is
non-empty.  This is the spec-side description against which the
source-translated `run_python_code` is compared. -/
def spec_ordered_segments (warnings : List String) (cap : Captured) : List String :=
  List.filterMap id
    [if warnings_text_of warnings = "" then none
       else some (pyRstrip (warnings_text_of warnings)),
     if print_output_of cap = "" then none else some (pyRstrip (print_output_of cap)),
     if cap.stdout_output = "" then none else some (pyRstrip cap.stdout_output),
     if cap.stderr_output = "" then none
       else some ("stderr: " ++ pyRstrip cap.stderr_output)]

/-! ## Lemmas about the path model -/

/-- `splitSlash` never returns the empty list. -/
lemma splitSlash_ne_nil (l : List Char) : splitSlash l ≠ [] := by
  cases l with
  | nil => simp [splitSlash]
  | cons c cs =>
    simp only [splitSlash]
    by_cases hc : c = '/'
    · simp [hc]
    · simp only [hc, if_false]
      cases h : splitSlash cs <;> simp

/-- The unfolding equation of `splitSlash` on a cons. -/
lemma splitSlash_cons (c : Char) (cs : List Char) :
    splitSlash (c :: cs)
      = if c = '/' then [] :: splitSlash cs
        else match splitSlash cs with
          | [] => [[c]]
          | w :: ws => (c :: w) :: ws := rfl

/-- Splitting at an explicit separator splits the two sides independently. -/
lemma splitSlash_append (a b : List Char) :
    splitSlash (a ++ '/' :: b) = splitSlash a ++ splitSlash b := by
  induction a with
  | nil => simp [splitSlash]
  | cons c cs ih =>
    have e1 : (c :: cs) ++ '/' :: b = c :: (cs ++ '/' :: b) := rfl
    by_cases hc : c = '/'
    · rw [e1, splitSlash_cons, splitSlash_cons, if_pos hc, if_pos hc, ih]
      rfl
    · cases h : splitSlash cs with
      | nil => exact absurd h (splitSlash_ne_nil cs)
      | cons w ws =>
        rw [e1, splitSlash_cons, splitSlash_cons, if_neg hc, if_neg hc, ih, h,
          List.cons_append]
        simp

/-- A slash-free word is its own single component. -/
lemma splitSlash_noslash (w : List Char) (h : '/' ∉ w) : splitSlash w = [w] := by
  induction w with
  | nil => rfl
  | cons c cs ih =>
    have hc : c ≠ '/' := fun he => h (he ▸ List.mem_cons_self c cs)
    have hcs : '/' ∉ cs := fun hm => h (List.mem_cons_of_mem c hm)
    simp [splitSlash, hc, ih hcs]

lemma joinSlash_cons_cons (w x : List Char) (xs : List (List Char)) :
    joinSlash (w :: x :: xs) = w ++ '/' :: joinSlash (x :: xs) := rfl

/-- `joinSlash` of a list headed by a nonempty word is nonempty. -/
lemma joinSlash_ne_nil (w : List Char) (hw : w ≠ []) (ws : List (List Char)) :
    joinSlash (w :: ws) ≠ [] := by
  cases ws with
  | nil => simpa [joinSlash] using hw
  | cons x xs =>
    rw [joinSlash_cons_cons]
    simp [hw]

/-- Appending one more component appends `'/'` and the component. -/
lemma joinSlash_append_single (X : List (List Char)) (hX : X ≠ []) (w : List Char) :
    joinSlash (X ++ [w]) = joinSlash X ++ '/' :: w := by
  induction X with
  | nil => exact absurd rfl hX
  | cons x xs ih =>
    cases xs with
    | nil => rfl
    | cons y ys =>
      have h2 : (y :: ys) ++ [w] = y :: (ys ++ [w]) := rfl
      have h1 : (x :: y :: ys) ++ [w] = x :: ((y :: ys) ++ [w]) := rfl
      rw [h1, h2, joinSlash_cons_cons x y (ys ++ [w]), ← h2, ih (by simp),
        joinSlash_cons_cons x y ys]
      simp

/-- `joinSlash (w :: ws)` starts with the word `w`. -/
lemma joinSlash_head (w : List Char) (ws : List (List Char)) :
    ∃ t, joinSlash (w :: ws) = w ++ t := by
  cases ws with
  | nil => exact ⟨[], by simp [joinSlash]⟩
  | cons x xs => exact ⟨'/' :: joinSlash (x :: xs), rfl⟩

/-- The last character of a join of nonempty slash-free words is not `'/'`. -/
lemma joinSlash_getLast_ne_slash (w : List Char) (ws : List (List Char))
    (h : ∀ u ∈ w :: ws, u ≠ [] ∧ '/' ∉ u) :
    (joinSlash (w :: ws)).getLast? ≠ some '/' := by
  induction ws generalizing w with
  | nil =>
    intro hc
    have hw := h w (List.mem_cons_self w [])
    exact hw.2 (List.mem_of_mem_getLast? (by simpa [joinSlash] using hc))
  | cons x xs ih =>
    rw [joinSlash_cons_cons]
    have hne : joinSlash (x :: xs) ≠ [] :=
      joinSlash_ne_nil x (h x (by simp)).1 xs
    rw [List.getLast?_append_of_ne_nil _ (by simp)]
    cases hJ : joinSlash (x :: xs) with
    | nil => exact absurd hJ hne
    | cons j js =>
      rw [List.getLast?_cons_cons, ← hJ]
      exact ih x (fun u hu => h u (List.mem_cons_of_mem w hu))

/-- `splitSlash` inverts `joinSlash` on nonempty lists of slash-free words. -/
lemma splitSlash_joinSlash (ws : List (List Char)) (hne : ws ≠ [])
    (hall : ∀ w ∈ ws, '/' ∉ w) : splitSlash (joinSlash ws) = ws := by
  induction ws with
  | nil => exact absurd rfl hne
  | cons w xs ih =>
    cases xs with
    | nil => simpa [joinSlash] using splitSlash_noslash w (hall w (by simp))
    | cons y ys =>
      rw [joinSlash_cons_cons, splitSlash_append,
        splitSlash_noslash w (hall w (by simp)),
        ih (by simp) (fun u hu => hall u (List.mem_cons_of_mem w hu))]
      rfl

/-- On component lists free of `".."`, the normalization loop keeps exactly
the components that are neither `""` nor `"."`, in order. -/
lemma normAcc_clean (isAbs : Bool) (acc comps : List (List Char))
    (h : ∀ c ∈ comps, c = [] ∨ c = ['.'] ∨ c ≠ dotdot) :
    normAcc isAbs acc comps
      = (comps.filter fun c => decide ¬(c = [] ∨ c = ['.'])).reverse ++ acc := by
  induction comps generalizing acc with
  | nil => simp [normAcc]
  | cons c rest ih =>
    have hrest : ∀ u ∈ rest, u = [] ∨ u = ['.'] ∨ u ≠ dotdot :=
      fun u hu => h u (List.mem_cons_of_mem c hu)
    by_cases hc : c = [] ∨ c = ['.']
    · rw [normAcc, if_pos hc, ih _ hrest, List.filter_cons]
      simp [hc]
    · have hdd : c ≠ dotdot := by
        rcases h c (List.mem_cons_self c rest) with h1 | h1 | h1
        · exact absurd (Or.inl h1) hc
        · exact absurd (Or.inr h1) hc
        · exact h1
      rw [normAcc, if_neg hc, if_pos (Or.inl hdd), ih _ hrest, List.filter_cons]
      simp [hc]

/-- `startswith` holds for any extension of the prefix. -/
lemma startswith_append (x y : List Char) : startswithCL (x ++ y) x = true := by
  induction x with
  | nil => cases y <;> rfl
  | cons c cs ih => simpa [startswithCL] using ih

/-- A string with a nonempty suffix is nonempty. -/
lemma append_ne_empty_right (a b : String) (hb : b ≠ "") : a ++ b ≠ "" := by
  intro hcon
  apply hb
  have hd : a.data ++ b.data = [] := by
    have := congrArg String.data hcon
    simpa using this
  have hbd : b.data = [] := (List.append_eq_nil.mp hd).2
  cases b with
  | mk data => cases hbd; rfl

lemma normalComp_facts (w : List Char) (h : normalComp w = true) :
    w ≠ [] ∧ w ≠ ['.'] ∧ w ≠ dotdot ∧ '/' ∉ w := by
  simpa [normalComp, and_assoc] using h

/-- A slash-free path does not begin with `'/'`. -/
lemma take1_ne_slash (p : List Char) (hp : '/' ∉ p) : p.take 1 ≠ ['/'] := by
  cases p with
  | nil => simp
  | cons c cs =>
    simp only [List.take, List.take_zero]
    intro hc
    exact hp (by simp at hc; simp [hc])

/-- A path of the form `/x...` with `x ≠ '/'` keeps exactly one leading
slash under `normpath`. -/
lemma initialSlashes_slash_nonslash (c : Char) (rest : List Char) (hc : c ≠ '/') :
    initialSlashes ('/' :: c :: rest) = 1 := by
  simp [initialSlashes, List.take, hc]

/-- Master computation: `os.path.abspath` of a relative path `rel` (whose
components are free of `".."`) against a working directory
`"/" ++ joinSlash cs` with well-formed components appends the surviving
components of `rel` to `cs`. -/
lemma abspath_cwd_rel (cs : List (List Char)) (hcs : ∀ c ∈ cs, normalComp c = true)
    (r0 : Char) (rrest : List Char) (hr0 : r0 ≠ '/')
    (hcomps : ∀ c ∈ splitSlash (r0 :: rrest), c = [] ∨ c = ['.'] ∨ c ≠ dotdot) :
    os_abspath ('/' :: joinSlash cs) (r0 :: rrest)
      = '/' :: joinSlash (cs ++
          (splitSlash (r0 :: rrest)).filter fun c => decide ¬(c = [] ∨ c = ['.'])) := by
  have hcsfacts : ∀ c ∈ cs, c ≠ [] ∧ c ≠ ['.'] ∧ c ≠ dotdot ∧ '/' ∉ c :=
    fun c hc => normalComp_facts c (hcs c hc)
  have htake : (r0 :: rrest).take 1 ≠ ['/'] := by
    simp only [List.take, List.take_zero]
    intro hcon
    simp at hcon
    exact hr0 hcon
  have hfilter : ∀ (comps : List (List Char)),
      (∀ c ∈ comps, c = [] ∨ c = ['.'] ∨ c ≠ dotdot) →
      normAcc true [] ([] :: comps)
        = (comps.filter fun c => decide ¬(c = [] ∨ c = ['.'])).reverse := by
    intro comps hh
    rw [normAcc_clean true [] ([] :: comps) (by
      intro c hc
      rcases List.mem_cons.mp hc with h1 | h2
      · exact Or.inl h1
      · exact hh c h2)]
    rw [List.filter_cons]
    simp
  cases cs with
  | nil =>
    -- cwd is "/": join produces '/' :: rel
    have hjoin : os_join ('/' :: joinSlash ([] : List (List Char))) (r0 :: rrest)
        = '/' :: r0 :: rrest := by
      unfold os_join
      rw [if_neg htake, if_pos (Or.inr (by simp [joinSlash]))]
      rfl
    unfold os_abspath
    rw [if_neg htake, hjoin]
    unfold normpath
    have hsplit : splitSlash ('/' :: r0 :: rrest) = [] :: splitSlash (r0 :: rrest) := by
      simp [splitSlash_cons]
    rw [initialSlashes_slash_nonslash r0 rrest hr0]
    have hisabs : pyIsAbs ('/' :: r0 :: rrest) = true := by simp [pyIsAbs, List.take]
    rw [hisabs, hsplit, hfilter _ hcomps]
    simp

  | cons w ws =>
    have hwfacts := hcsfacts w (by simp)
    -- the working directory does not end in '/': its last word is slash-free
    have hlast : ('/' :: joinSlash (w :: ws)).getLast? ≠ some '/' := by
      cases hJ : joinSlash (w :: ws) with
      | nil => exact absurd hJ (joinSlash_ne_nil w hwfacts.1 ws)
      | cons j js =>
        rw [List.getLast?_cons_cons, ← hJ]
        exact joinSlash_getLast_ne_slash w ws
          (fun u hu => ⟨(hcsfacts u hu).1, (hcsfacts u hu).2.2.2⟩)
    have hnocond : ¬(('/' :: joinSlash (w :: ws)) = []
        ∨ ('/' :: joinSlash (w :: ws)).getLast? = some '/') := by
      intro hcon
      rcases hcon with h1 | h2
      · exact absurd h1 (by simp)
      · exact hlast h2
    have hjoin : os_join ('/' :: joinSlash (w :: ws)) (r0 :: rrest)
        = ('/' :: joinSlash (w :: ws)) ++ '/' :: (r0 :: rrest) := by
      unfold os_join
      rw [if_neg htake, if_neg hnocond]
    unfold os_abspath
    rw [if_neg htake, hjoin]
    unfold normpath
    have hsplitcwd : splitSlash ('/' :: joinSlash (w :: ws)) = [] :: (w :: ws) := by
      rw [splitSlash_cons, if_pos rfl,
        splitSlash_joinSlash (w :: ws) (by simp) (fun u hu => (hcsfacts u hu).2.2.2)]
    have hsplit : splitSlash (('/' :: joinSlash (w :: ws)) ++ '/' :: (r0 :: rrest))
        = ([] :: (w :: ws)) ++ splitSlash (r0 :: rrest) := by
      rw [splitSlash_append, hsplitcwd]
    -- the full path starts "/c..." with c ≠ '/', the head of w
    obtain ⟨w0, w', hw⟩ : ∃ w0 w', w = w0 :: w' := by
      cases w with
      | nil => exact absurd rfl hwfacts.1
      | cons a l => exact ⟨a, l, rfl⟩
    have hw0 : w0 ≠ '/' := by
      intro hcon
      exact hwfacts.2.2.2 (by rw [hw, hcon]; simp)
    obtain ⟨t, ht⟩ := joinSlash_head w ws
    have hshape : ('/' :: joinSlash (w :: ws)) ++ '/' :: (r0 :: rrest)
        = '/' :: w0 :: (w' ++ t ++ '/' :: (r0 :: rrest)) := by
      rw [ht, hw]
      simp
    rw [hshape, initialSlashes_slash_nonslash w0 _ hw0]
    have hisabs : pyIsAbs ('/' :: w0 :: (w' ++ t ++ '/' :: (r0 :: rrest))) = true := by
      simp [pyIsAbs, List.take]
    rw [hisabs, ← hshape, hsplit]
    have hnorm : normAcc true [] (([] :: (w :: ws)) ++ splitSlash (r0 :: rrest))
        = ((w :: ws) ++
            (splitSlash (r0 :: rrest)).filter fun c => decide ¬(c = [] ∨ c = ['.'])).reverse := by
      have hcons : ([] :: (w :: ws)) ++ splitSlash (r0 :: rrest)
          = [] :: ((w :: ws) ++ splitSlash (r0 :: rrest)) := rfl
      rw [hcons, hfilter _ (by
        intro c hc
        rcases List.mem_append.mp hc with h1 | h2
        · exact Or.inr (Or.inr (hcsfacts c h1).2.2.1)
        · exact hcomps c h2)]
      rw [List.filter_append, List.filter_eq_self.mpr (by
        intro c hc
        have hf := hcsfacts c hc
        simp [hf.1, hf.2.1])]
    rw [hnorm]
    simp

lemma data_dir_data : DATA_DIRECTORY.data = '.' :: '/' :: dataComp := rfl

/-- `abspath(cwd, "./data")` appends the component `data` to the
components of the working directory. -/
lemma abspath_data_dir (cs : List (List Char)) (hcs : ∀ c ∈ cs, normalComp c = true) :
    os_abspath ('/' :: joinSlash cs) DATA_DIRECTORY.data
      = '/' :: joinSlash (cs ++ [dataComp]) := by
  have h := abspath_cwd_rel cs hcs '.' ('/' :: dataComp) (by decide) (by decide)
  have e : (splitSlash ('.' :: '/' :: dataComp)).filter
      (fun c => decide ¬(c = [] ∨ c = ['.'])) = [dataComp] := by decide
  rw [data_dir_data, h, e]

/-- `abspath(cwd, p)` for a bare well-formed filename `p` appends `p` to the
components of the working directory. -/
lemma abspath_bare (cs : List (List Char)) (hcs : ∀ c ∈ cs, normalComp c = true)
    (p0 : Char) (pr : List Char) (hp : normalComp (p0 :: pr) = true) :
    os_abspath ('/' :: joinSlash cs) (p0 :: pr)
      = '/' :: joinSlash (cs ++ [p0 :: pr]) := by
  obtain ⟨h1, h2, h3, h4⟩ := normalComp_facts _ hp
  have hp0 : p0 ≠ '/' := fun hc => h4 (hc ▸ List.mem_cons_self p0 pr)
  have hsp : splitSlash (p0 :: pr) = [p0 :: pr] := splitSlash_noslash _ h4
  have h := abspath_cwd_rel cs hcs p0 pr hp0 (by
    rw [hsp]
    intro c hc
    simp at hc
    subst hc
    exact Or.inr (Or.inr h3))
  rw [h, hsp, List.filter_cons]
  simp [h2]

/-- `abspath(cwd, "./data/" + p)` for a bare well-formed filename `p`
appends the components `data` and `p` to the working directory. -/
lemma abspath_joined (cs : List (List Char)) (hcs : ∀ c ∈ cs, normalComp c = true)
    (p0 : Char) (pr : List Char) (hp : normalComp (p0 :: pr) = true) :
    os_abspath ('/' :: joinSlash cs) ("./data".data ++ '/' :: (p0 :: pr))
      = '/' :: joinSlash (cs ++ [dataComp, p0 :: pr]) := by
  obtain ⟨h1, h2, h3, h4⟩ := normalComp_facts _ hp
  have hsp : splitSlash ("./data".data ++ '/' :: (p0 :: pr))
      = [['.'], dataComp, p0 :: pr] := by
    have e1 : "./data".data ++ '/' :: (p0 :: pr)
        = ['.'] ++ '/' :: (dataComp ++ '/' :: (p0 :: pr)) := rfl
    rw [e1, splitSlash_append, splitSlash_append,
      splitSlash_noslash _ h4, splitSlash_noslash dataComp (by decide)]
    rfl
  have e2 : "./data".data ++ '/' :: (p0 :: pr)
      = '.' :: ('/' :: (dataComp ++ '/' :: (p0 :: pr))) := rfl
  have h := abspath_cwd_rel cs hcs '.' ('/' :: (dataComp ++ '/' :: (p0 :: pr)))
    (by decide) (by
      rw [← e2, hsp]
      intro c hc
      simp at hc
      rcases hc with hc | hc | hc
      · subst hc; exact Or.inr (Or.inl rfl)
      · subst hc; exact Or.inr (Or.inr (by decide))
      · subst hc; exact Or.inr (Or.inr h3))
  rw [e2, h, ← e2, hsp]
  rw [List.filter_cons, List.filter_cons, List.filter_cons]
  simp [h2, dataComp]

/-- For any well-formed working directory and bare well-formed filename,
`safe_open` passes its guard and opens `./data/<filename>`: the join onto
the data directory happens before the containment check. -/
lemma safe_open_bare (cs : List (List Char)) (hcs : ∀ c ∈ cs, normalComp c = true)
    (p : List Char) (hp : normalComp p = true) :
    safe_open ⟨'/' :: joinSlash cs⟩ ⟨p⟩ = OpenResult.opened ⟨"./data".data ++ '/' :: p⟩ := by
  obtain ⟨h1, h2, h3, h4⟩ := normalComp_facts p hp
  obtain ⟨p0, pr, hpp⟩ : ∃ p0 pr, p = p0 :: pr := by
    cases p with
    | nil => exact absurd rfl h1
    | cons a l => exact ⟨a, l, rfl⟩
  subst hpp
  have hfp : os_join DATA_DIRECTORY.data (p0 :: pr) = "./data".data ++ '/' :: (p0 :: pr) := by
    unfold os_join
    rw [if_neg (take1_ne_slash _ h4), if_neg (by decide)]
    rfl
  have habs := abspath_joined cs hcs p0 pr hp
  have hdata := abspath_data_dir cs hcs
  have hpref : startswithCL ('/' :: joinSlash (cs ++ [dataComp, p0 :: pr]))
      ('/' :: joinSlash (cs ++ [dataComp])) = true := by
    have e : cs ++ [dataComp, p0 :: pr] = (cs ++ [dataComp]) ++ [p0 :: pr] := by simp
    rw [e, joinSlash_append_single (cs ++ [dataComp]) (by simp) (p0 :: pr)]
    simp [startswithCL, startswith_append]
  show (if pyStartswith (pyAbspath ⟨'/' :: joinSlash cs⟩ (pyJoinPath DATA_DIRECTORY ⟨p0 :: pr⟩))
          (pyAbspath ⟨'/' :: joinSlash cs⟩ DATA_DIRECTORY) = true
    then OpenResult.opened (pyJoinPath DATA_DIRECTORY ⟨p0 :: pr⟩)
    else OpenResult.permissionError ("Access denied: Can only open files in " ++ DATA_DIRECTORY))
    = OpenResult.opened ⟨"./data".data ++ '/' :: (p0 :: pr)⟩
  have hjp : pyJoinPath DATA_DIRECTORY ⟨p0 :: pr⟩ = ⟨"./data".data ++ '/' :: (p0 :: pr)⟩ := by
    unfold pyJoinPath
    rw [show (⟨p0 :: pr⟩ : String).data = p0 :: pr from rfl, hfp]
  rw [hjp]
  have hcond : pyStartswith (pyAbspath ⟨'/' :: joinSlash cs⟩ ⟨"./data".data ++ '/' :: (p0 :: pr)⟩)
      (pyAbspath ⟨'/' :: joinSlash cs⟩ DATA_DIRECTORY) = true := by
    unfold pyStartswith pyAbspath
    rw [show (⟨"./data".data ++ '/' :: (p0 :: pr)⟩ : String).data
        = "./data".data ++ '/' :: (p0 :: pr) from rfl]
    rw [show (⟨'/' :: joinSlash cs⟩ : String).data = '/' :: joinSlash cs from rfl]
    rw [habs, hdata]
    exact hpref
  rw [hcond]
  simp

/-- `String.intercalate` on a singleton list. -/
lemma intercalate_single (s a : String) : String.intercalate s [a] = a := rfl

/-- `String.intercalate "\n"` on a two-element list. -/
lemma intercalate_pair (a b : String) :
    String.intercalate "\n" [a, b] = a ++ "\n" ++ b := rfl

/-- The source's sequential `output_parts` construction coincides with the
spec-side ordered-segment description. -/
lemma output_parts_eq_spec (w : List String) (cap : Captured) :
    output_parts w cap = spec_ordered_segments w cap := by
  unfold output_parts spec_ordered_segments
  by_cases hw : warnings_text_of w = "" <;> by_cases hp : print_output_of cap = "" <;>
    by_cases ho : cap.stdout_output = "" <;> by_cases he : cap.stderr_output = "" <;>
      simp [hw, hp, ho, he]

/-! ## Claims -/

/-- C1: the claim states that every path escaping the data root via `..`
segments or an absolute path makes `safe_open` raise, the path being
resolved to a canonical absolute path before the prefix comparison.  The
code violates this: `os.path.abspath` is purely lexical (no symlink
resolution) and the `startswith` comparison lacks a trailing separator, so
from working directory `/home/user` the filename `"../data2/secret"`
resolves to `/home/user/data2/secret` — outside the root `/home/user/data` —
yet passes the guard and is opened.  Plain `../../etc/passwd` escapes and
inside names like `"sales.csv"` behave as claimed. -/
theorem c1_safe_open_traversal_escape :
    safe_open "/home/user" "../data2/secret" = OpenResult.opened "./data/../data2/secret" ∧
    withinRoot "/home/user" (pyAbspath "/home/user" "./data/../data2/secret") = false ∧
    safe_open "/home/user" "../../etc/passwd"
      = OpenResult.permissionError ("Access denied: Can only open files in " ++ DATA_DIRECTORY) ∧
    safe_open "/home/user" "sales.csv" = OpenResult.opened "./data/sales.csv" := by
  decide

/-- C2 (counterexample): state planted on a shared module object during one
`run_python_code` request **is** observable from a later request.  The first
request executes `pd.plantedFlag = 1` (RestrictedPython routes the attribute
write through `_write_`, which src/main.py line 60 makes the identity, so
the write lands on the process-wide pandas module object); the second,
independent request reads `pd.plantedFlag` and observes `1` instead of an
attribute error, refuting the claim that no planted state survives across
two separate requests. -/
theorem c2_planted_module_state_observed :
    twoCalls [Stmt.setattrStmt "pd" "plantedFlag" (PyValue.intV 1)]
        [Stmt.getattrStmt "pd" "plantedFlag"]
      = [Obs.value (PyValue.intV 1)] := by
  decide

/-- C2 (amended): every request executes in an independently constructed
namespace, so no **namespace binding** survives across requests: whatever
the first request ran, a second request reading a name that
`create_safe_namespace` does not bind reports a `NameError`
(`NameNotDefined`), never a value planted by the first request.  (Per the
counterexample, this does not extend to attribute state on the shared
module objects.) -/
theorem c2_fresh_namespace_isolation (prog1 : List Stmt) (x : String)
    (hx : create_safe_namespace.lookup x = none) :
    twoCalls prog1 [Stmt.readVar x] = [Obs.nameError x] := by
  simp [twoCalls, run_request, execProg, execStmt, hx]

/-- C2 witness: the spec's own scenario — one request defines `x = 1`, a
second reads `x` and gets the name error, not `1`. -/
theorem c2_fresh_namespace_isolation_witness :
    twoCalls [Stmt.assign "x" (PyValue.intV 1)] [Stmt.readVar "x"]
      = [Obs.nameError "x"] :=
  c2_fresh_namespace_isolation [Stmt.assign "x" (PyValue.intV 1)] "x" (by decide)

/-- C3: the claim states that every name in the module allow-list is
returned as a module by `safe_import`.  The code contradicts its own
allow-list: `"pd"`, `"np"`, `"matplotlib"` and `"openpyxl"` are members of
`allowed_modules`, yet no branch of the dispatch handles them, so control
falls through to the `raise ImportError("... is not allowed ...")` at
src/main.py line 102.  (`"pandas"` behaves as claimed.) -/
theorem c3_allow_listed_aliases_denied :
    ("pd" ∈ allowed_modules ∧ "np" ∈ allowed_modules ∧
     "matplotlib" ∈ allowed_modules ∧ "openpyxl" ∈ allowed_modules) ∧
    safe_import true true "pd" = ImportResult.importError (deniedMsg "pd") ∧
    safe_import true true "np" = ImportResult.importError (deniedMsg "np") ∧
    safe_import true true "matplotlib" = ImportResult.importError (deniedMsg "matplotlib") ∧
    safe_import true true "openpyxl" = ImportResult.importError (deniedMsg "openpyxl") ∧
    safe_import true true "pandas" = ImportResult.module "pandas" := by
  decide

/-- C4: the claim states that importing a non-allow-listed module inside
submitted code fails with an ImportDenied-class error whose message names
the offending module.  The code violates this: `exec(compiled, namespace)`
gives the executing frame the builtins `namespace["__builtins__"]` —
RestrictedPython's `safe_builtins`, which provides no `__import__` — so
**every** import statement, whatever the module name, fails with the
interpreter's generic `ImportError: __import__ not found`, which names no
module.  The per-module denial message of `safe_import` (src/main.py line
102), which would have named it, sits in a global binding (line 104) that
the import machinery never consults: it is unreachable from submitted code. -/
theorem c4_import_in_code_does_not_name_module :
    (∀ (numpy_ok matplotlib_ok : Bool) (name : String),
      runImportStmt builtins_import_hook numpy_ok matplotlib_ok name
        = ImportResult.importError "__import__ not found") ∧
    safe_import true true "os" = ImportResult.importError (deniedMsg "os") :=
  ⟨fun _ _ _ => rfl, by decide⟩

/-- C5: when restricted compilation reports errors, `run_python_code`
returns the formatted error list and the result does not depend on the
`exec` outcome at all — the executor is never invoked and the execution
namespace is never consulted (the namespace is only created on the
error-free path, src/main.py line 310). -/
theorem c5_compile_errors_block_execution (cu : CompiledUnit) (h : cu.errors ≠ [])
    (outcome outcome2 : Except String Captured) :
    run_python_code cu outcome = format_compile_errors cu.errors ∧
    run_python_code cu outcome = run_python_code cu outcome2 := by
  constructor <;> simp [run_python_code, h]

/-- C5 witness: a unit with one compile error returns the formatted list,
whether the (never-run) executor would have succeeded or raised. -/
theorem c5_compile_errors_block_execution_witness :
    run_python_code ⟨["Line 1: invalid syntax"], []⟩ (Except.ok ⟨"", "", []⟩)
      = format_compile_errors ["Line 1: invalid syntax"] ∧
    run_python_code ⟨["Line 1: invalid syntax"], []⟩ (Except.ok ⟨"", "", []⟩)
      = run_python_code ⟨["Line 1: invalid syntax"], []⟩ (Except.error "boom") :=
  c5_compile_errors_block_execution ⟨["Line 1: invalid syntax"], []⟩ (by decide) _ _

/-- C7: a compilation without errors whose execution captures no output of
any kind makes `run_python_code` return a message ending in the explicit
no-output confirmation, never the empty string. -/
theorem c7_no_output_confirmation (cu : CompiledUnit) (h : cu.errors = [])
    (cap : Captured) (h1 : cap.collected = []) (h2 : cap.stdout_output = "")
    (h3 : cap.stderr_output = "") :
    (∃ pre, run_python_code cu (Except.ok cap) = pre ++ noOutputMsg) ∧
    run_python_code cu (Except.ok cap) ≠ "" := by
  have hp : print_output_of cap = "" := by simp [print_output_of, h1]
  by_cases hw : warnings_text_of cu.warnings = ""
  · have hrun : run_python_code cu (Except.ok cap) = noOutputMsg := by
      simp [run_python_code, h, hp, h2, h3, hw]
    rw [hrun]
    exact ⟨⟨"", rfl⟩, by decide⟩
  · have hrun : run_python_code cu (Except.ok cap)
        = pyRstrip (warnings_text_of cu.warnings) ++ "\n" ++ noOutputMsg := by
      simp [run_python_code, h, hp, h2, h3, hw, output_parts, intercalate_pair]
    rw [hrun]
    constructor
    · exact ⟨pyRstrip (warnings_text_of cu.warnings) ++ "\n", rfl⟩
    · exact append_ne_empty_right _ _ (by decide)

/-- C7 witness: `run_python_code("")` — the empty code string compiles with
no errors, no warnings, and produces no output — returns exactly the
no-output confirmation, which is not the empty string. -/
theorem c7_no_output_confirmation_witness :
    (∃ pre, run_python_code ⟨[], []⟩ (Except.ok ⟨"", "", []⟩) = pre ++ noOutputMsg) ∧
    run_python_code ⟨[], []⟩ (Except.ok ⟨"", "", []⟩) ≠ "" :=
  c7_no_output_confirmation ⟨[], []⟩ rfl ⟨"", "", []⟩ rfl rfl rfl

/-- C8: within one successful call, the returned text is exactly the
newline-join of the non-empty segments in the order warnings,
print-collected output, raw stdout, raw stderr (each appearing once), with
the no-output confirmation appended exactly when all three output channels
are empty. -/
theorem c8_output_ordering (cu : CompiledUnit) (h : cu.errors = []) (cap : Captured) :
    run_python_code cu (Except.ok cap)
      = String.intercalate "\n"
          (spec_ordered_segments cu.warnings cap ++
            (if print_output_of cap = "" ∧ cap.stdout_output = "" ∧ cap.stderr_output = ""
              then [noOutputMsg] else [])) := by
  by_cases hall : print_output_of cap = "" ∧ cap.stdout_output = "" ∧ cap.stderr_output = ""
  · by_cases hw : warnings_text_of cu.warnings = ""
    · have hseg : spec_ordered_segments cu.warnings cap = [] := by
        simp [spec_ordered_segments, hw, hall.1, hall.2.1, hall.2.2]
      simp [run_python_code, h, hall, hw, hseg, intercalate_single]
    · simp [run_python_code, h, hall, hw, output_parts_eq_spec]
  · simp [run_python_code, h, hall, output_parts_eq_spec]

/-- C8 witness: warnings, print output, stdout and stderr all present are
joined in exactly that order. -/
theorem c8_output_ordering_witness :
    run_python_code ⟨[], ["unsafe pattern"]⟩ (Except.ok ⟨"raw out\n", "oops", ["p1", "p2"]⟩)
      = String.intercalate "\n"
          (spec_ordered_segments ["unsafe pattern"] ⟨"raw out\n", "oops", ["p1", "p2"]⟩ ++
            (if print_output_of ⟨"raw out\n", "oops", ["p1", "p2"]⟩ = ""
                ∧ ("raw out\n" : String) = "" ∧ ("oops" : String) = ""
              then [noOutputMsg] else [])) :=
  c8_output_ordering ⟨[], ["unsafe pattern"]⟩ rfl ⟨"raw out\n", "oops", ["p1", "p2"]⟩

set_option maxRecDepth 8192 in
/-- C9: the claim states that error text does not expose the host's
internal absolute paths, in particular not the server's own source-file
path.  The code returns `traceback.format_exc()` verbatim (src/main.py
lines 366-371), and that rendering begins with the frame of
`run_python_code` itself — the `exec` call at line 336 of the server's
source as loaded.  For a server started via an absolute script path, the
result text of a failing execution therefore contains that absolute internal
path. -/
theorem c9_error_text_contains_server_path :
    ∃ pre post,
      run_python_code ⟨[], []⟩
          (Except.error (format_exc
            [⟨serverPathDemo, 336, "run_python_code"⟩, ⟨"<user_code>", 1, "<module>"⟩]
            "ZeroDivisionError: division by zero"))
        = pre ++ serverPathDemo ++ post :=
  ⟨"Error executing Python code in restricted environment:\nTraceback (most recent call last):\n  File \"",
   "\", line 336, in run_python_code\n  File \"<user_code>\", line 1, in <module>\nZeroDivisionError: division by zero\n",
   by decide⟩

/-- C10 (counterexample): the claim quantifies over every bare filename
whose absolute resolution lies outside the data directory and asserts
`SafePath` rejects it.  `"database.csv"` from working directory
`/home/user` resolves to `/home/user/database.csv` — outside the data
directory `/home/user/data` — yet `SafePath` accepts it, because the bare
`startswith` comparison also lacks a trailing separator. -/
theorem c10_bare_name_outside_root_allowed :
    withinRoot "/home/user" (pyAbspath "/home/user" "database.csv") = false ∧
    SafePath_init "/home/user" "database.csv" = PathResult.safePath "database.csv" ∧
    safe_open "/home/user" "database.csv" = OpenResult.opened "./data/database.csv" := by
  decide

/-- C10 (amended): the two guards are inconsistent on bare filenames
exactly as the claim describes, with "resolution lies outside the data
directory" sharpened to "resolution fails the code's data-root string-prefix
test": for every well-formed absolute working directory and every bare
filename `p` (nonempty, slash-free, neither `.` nor `..`) whose absolute
resolution does not start with the absolute data directory, the `SafePath`
constructor raises `PermissionError` while `safe_open` with the same
argument passes its guard and opens `./data/<p>`. -/
theorem c10_safePath_safeOpen_disagree (cs : List (List Char))
    (hcs : ∀ c ∈ cs, normalComp c = true) (p : List Char) (hp : normalComp p = true)
    (hout : pyStartswith (pyAbspath ⟨'/' :: joinSlash cs⟩ ⟨p⟩)
        (pyAbspath ⟨'/' :: joinSlash cs⟩ DATA_DIRECTORY) = false) :
    SafePath_init ⟨'/' :: joinSlash cs⟩ ⟨p⟩
      = PathResult.permissionError ("Access denied: Path must be within " ++ DATA_DIRECTORY) ∧
    safe_open ⟨'/' :: joinSlash cs⟩ ⟨p⟩
      = OpenResult.opened ⟨"./data".data ++ '/' :: p⟩ := by
  constructor
  · show (if pyStartswith (pyAbspath ⟨'/' :: joinSlash cs⟩ ⟨p⟩)
            (pyAbspath ⟨'/' :: joinSlash cs⟩ DATA_DIRECTORY) = true
      then PathResult.safePath ⟨p⟩
      else PathResult.permissionError ("Access denied: Path must be within " ++ DATA_DIRECTORY))
      = PathResult.permissionError ("Access denied: Path must be within " ++ DATA_DIRECTORY)
    rw [hout]
    simp
  · exact safe_open_bare cs hcs p hp

/-- C10 witness: from `/home/user`, the name `report.csv` (which resolves
to `/home/user/report.csv`, failing the prefix test) is rejected by
`SafePath` but opened by `safe_open` as `./data/report.csv`. -/
theorem c10_safePath_safeOpen_disagree_witness :
    SafePath_init "/home/user" "report.csv"
      = PathResult.permissionError ("Access denied: Path must be within " ++ DATA_DIRECTORY) ∧
    safe_open "/home/user" "report.csv" = OpenResult.opened "./data/report.csv" := by
  have h := c10_safePath_safeOpen_disagree ["home".data, "user".data] (by decide)
    "report.csv".data (by decide) (by decide)
  have e1 : (⟨'/' :: joinSlash ["home".data, "user".data]⟩ : String) = "/home/user" := by decide
  have e3 : (⟨"./data".data ++ '/' :: "report.csv".data⟩ : String) = "./data/report.csv" := by
    decide
  rw [e1, e3] at h
  exact h

end TabularMCP
